import Mathlib

/-!
Verification of the Ragie RAG agent's query-answering pipeline.

This file shallowly embeds the core of `app/ragie_client.py` and
`app/main.py`:
- chunks (passages) are Python dicts `Dict[str, Any]` holding JSON values,
  modelled as association lists over a small JSON value type;
- `retrieve_chunks` is embedded with the external HTTP call abstracted as a
  `RetrievalOutcome` oracle (success with a parsed response body, or a
  raised network/service error), everything around the call translated
  from the source;
- `generate_response` is embedded with the OpenAI completion call
  abstracted as an `LLMOutcome` oracle; the citation/context loop is
  translated from the source.  Building a citation can fail (Python raises
  `TypeError` when slicing a non-string `text` value), so citation
  construction returns an `Option`;
- the `/query` endpoint handler of `app/main.py` is embedded as
  `handleQuery`, instrumented with two booleans recording whether the
  retrieval service and the language model were actually contacted,
  mirroring the control flow of the handler (FastAPI/pydantic body
  validation included).
-/

namespace RagieAgent

/-- A JSON-style value as stored in the Python dicts the code manipulates.
Numeric values are modelled as integers; the code only passes scores
through unchanged so the carrier of `num` is irrelevant to behaviour. -/
inductive JsonVal where
  | null
  | bool (b : Bool)
  | num (n : Int)
  | str (s : String)
deriving DecidableEq, Repr

/-- A retrieved chunk: a Python dict `Dict[str, Any]`, modelled as an
association list from keys to JSON values. -/
abbrev Chunk := List (String × JsonVal)

/-- Python `d.get(k, default)`: the stored value when the key is present,
the default otherwise. -/
def dictGetD (c : Chunk) (k : String) (d : JsonVal) : JsonVal :=
  (List.lookup k c).getD d

/-- Extract the string payload of a JSON value; `none` for non-strings
(where Python string slicing would raise `TypeError`). -/
def getStr : JsonVal → Option String
  | .str s => some s
  | _ => none

/-- Python `str(v)` as used in the context f-string, which never fails. -/
def pyStr : JsonVal → String
  | .null => "None"
  | .bool b => if b then "True" else "False"
  | .num n => toString n
  | .str s => s

/-- `f"client_{client_id}"`: the tenant partition string built in
`upload_document`, `retrieve_chunks` and `list_documents`. -/
def partitionOf (client_id : String) : String :=
  "client_" ++ client_id

/-- The JSON payload `retrieve_chunks` posts to the retrieval service. -/
structure RetrievalPayload where
  query : String
  partition : String
  top_k : Int
  rerank : Bool
  recency_bias : Bool
deriving DecidableEq, Repr

/-- The payload built at the top of `retrieve_chunks`. -/
def retrievePayload (query client_id : String) (top_k : Int) : RetrievalPayload :=
  { query := query
    partition := partitionOf client_id
    top_k := top_k
    rerank := true
    recency_bias := true }

/-- The parsed body of a retrieval-service response, modelled as a map
from keys to chunk arrays; only the `chunks` / `scored_chunks` keys are
ever consulted by the code. -/
abbrev RetrievalDict := List (String × List Chunk)

/-- Outcome of the HTTP call inside `retrieve_chunks`: a successful
response with a parsed JSON body, or a raised network/service error. -/
inductive RetrievalOutcome where
  | ok (result : RetrievalDict)
  | err
deriving DecidableEq, Repr

/-- `retrieve_chunks` (app/ragie_client.py): on success, copies
`scored_chunks` to `chunks` when the latter is absent; any exception is
swallowed and `{"chunks": []}` returned. -/
def retrieve_chunks (query client_id : String) (top_k : Int)
    (outcome : RetrievalOutcome) : RetrievalDict :=
  let _payload := retrievePayload query client_id top_k
  match outcome with
  | .err => [("chunks", [])]
  | .ok result =>
      if (List.lookup "scored_chunks" result).isSome
          && (List.lookup "chunks" result).isNone then
        ("chunks", (List.lookup "scored_chunks" result).getD []) :: result
      else
        result

/-- A citation dict as assembled in `generate_response`.  `document_id`,
`chunk_id`, `page_number` and `score` are whatever `chunk.get` produced
(possibly `null`), matching the untyped Python dict. -/
structure Citation where
  id : Nat
  document_id : JsonVal
  chunk_id : JsonVal
  text : String
  page_number : JsonVal
  score : JsonVal
deriving DecidableEq, Repr

/-- `chunk.get('text', '')[:100] + "..."`: truncate the passage text to
the 100-character preview budget and append the ellipsis marker.  Python
slices by character, embedded via the character list of the string. -/
def previewText (s : String) : String :=
  String.mk (s.data.take 100) ++ "..."

/-- One iteration of the citation loop in `generate_response` (0-based
loop index `i`, citation id `i+1`).  `none` when the chunk's `text` value
is not a string, where the Python slice raises `TypeError`. -/
def mkCitation (i : Nat) (c : Chunk) : Option Citation :=
  match getStr (dictGetD c "text" (.str "")) with
  | none => none
  | some t =>
      some { id := i + 1
             document_id := dictGetD c "document_id" .null
             chunk_id := dictGetD c "chunk_id" .null
             text := previewText t
             page_number := dictGetD c "page_number" (.str "N/A")
             score := dictGetD c "score" (.num 0) }

/-- The citation half of the loop in `generate_response`, starting at loop
index `i`. -/
def buildCitationsFrom (i : Nat) : List Chunk → Option (List Citation)
  | [] => some []
  | c :: cs =>
      match mkCitation i c with
      | none => none
      | some cit =>
          match buildCitationsFrom (i + 1) cs with
          | none => none
          | some rest => some (cit :: rest)

/-- All citations derived from a chunk sequence, ids assigned 1-based in
input order. -/
def buildCitations (chunks : List Chunk) : Option (List Citation) :=
  buildCitationsFrom 0 chunks

/-- The grounding context assembled in `generate_response`:
`"\n\n".join(f"[{i+1}] {chunk.get('text', '')}")`. -/
def buildContext (chunks : List Chunk) : String :=
  String.intercalate "\n\n"
    ((List.range chunks.length).zip chunks |>.map
      (fun p => "[" ++ toString (p.1 + 1) ++ "] " ++ pyStr (dictGetD p.2 "text" (.str ""))))

/-- Outcome of the OpenAI chat-completion call inside `generate_response`:
a returned message or a raised error.  The prompt strings only
parameterise this external call and do not affect any behaviour of the
embedded code. -/
inductive LLMOutcome where
  | ok (answer : String)
  | err
deriving DecidableEq, Repr

/-- The value returned by `generate_response`. -/
structure AnswerResult where
  answer : String
  citations : List Citation
deriving DecidableEq, Repr

/-- `generate_response` (app/ragie_client.py): build citations and context
from the chunks, then issue one completion call.  `none` models an
exception escaping the function (a `TypeError` in the citation loop, or a
failed language-model call). -/
def generate_response (query : String) (chunks : List Chunk)
    (llm : LLMOutcome) : Option AnswerResult :=
  match buildCitations chunks with
  | none => none
  | some citations =>
      let _context := buildContext chunks
      let _q := query
      match llm with
      | .err => none
      | .ok answer => some { answer := answer, citations := citations }

/-- The raw JSON body of a `/query` request before pydantic validation:
each field either absent/null or a value of the declared type. -/
structure RawRequest where
  query : Option String
  client_id : Option String
  top_k : Option Int
deriving DecidableEq, Repr

/-- The validated `QueryRequest` pydantic model of `app/main.py`:
`query: str`, `client_id: str`, `top_k: int = 8`. -/
structure QueryRequest where
  query : String
  client_id : String
  top_k : Int
deriving DecidableEq, Repr

/-- FastAPI/pydantic validation of the request body: `query` and
`client_id` are required fields (a missing or null field fails validation
with a 422 before the handler runs); `top_k` defaults to 8.  An empty
string is a valid `str` value. -/
def parseRequest (r : RawRequest) : Option QueryRequest :=
  match r.query, r.client_id with
  | some q, some c => some { query := q, client_id := c, top_k := r.top_k.getD 8 }
  | _, _ => none

/-- `chunks = retrieval_result.get("chunks", retrieval_result.get("scored_chunks", []))`
in the `/query` handler. -/
def extractChunks (d : RetrievalDict) : List Chunk :=
  (List.lookup "chunks" d).getD ((List.lookup "scored_chunks" d).getD [])

/-- What the caller of the `/query` endpoint observes. -/
inductive Response where
  | success (r : AnswerResult)
  | validationError
  | httpError (code : Nat)
deriving DecidableEq, Repr

/-- The endpoint result together with which external services were
actually contacted while handling the request. -/
structure HandlerTrace where
  response : Response
  retrievalCalled : Bool
  llmCalled : Bool
deriving DecidableEq, Repr

/-- The canned answer returned when retrieval yields no chunks. -/
def noInfoAnswer : String := "No relevant information found for your query."

/-- The `/query` endpoint of `app/main.py`: validate the body, retrieve
chunks, short-circuit with the canned answer when none were found,
otherwise call `generate_response`; any exception in the handler becomes
an HTTP 500 error. -/
def handleQuery (raw : RawRequest) (ret : RetrievalOutcome)
    (llm : LLMOutcome) : HandlerTrace :=
  match parseRequest raw with
  | none => { response := .validationError, retrievalCalled := false, llmCalled := false }
  | some req =>
      let retrieval_result := retrieve_chunks req.query req.client_id req.top_k ret
      let chunks := extractChunks retrieval_result
      if chunks.isEmpty then
        { response := .success { answer := noInfoAnswer, citations := [] }
          retrievalCalled := true
          llmCalled := false }
      else
        match generate_response req.query chunks llm with
        | none =>
            { response := .httpError 500
              retrievalCalled := true
              -- the completion call is reached iff the citation loop did not raise
              llmCalled := (buildCitations chunks).isSome }
        | some resp => { response := .success resp, retrievalCalled := true, llmCalled := true }

/-! ### Helper lemmas -/

theorem mkCitation_eq (i : Nat) (c : Chunk) (cit : Citation)
    (h : mkCitation i c = some cit) :
    ∃ t, getStr (dictGetD c "text" (.str "")) = some t ∧
      cit = { id := i + 1
              document_id := dictGetD c "document_id" .null
              chunk_id := dictGetD c "chunk_id" .null
              text := previewText t
              page_number := dictGetD c "page_number" (.str "N/A")
              score := dictGetD c "score" (.num 0) } := by
  unfold mkCitation at h
  cases hg : getStr (dictGetD c "text" (.str "")) with
  | none => rw [hg] at h; exact absurd h (by simp)
  | some t =>
      rw [hg] at h
      exact ⟨t, rfl, (Option.some_inj.mp h).symm⟩

theorem previewText_length (s : String) : (previewText s).length ≤ 100 + 3 := by
  unfold previewText
  rw [String.length_append]
  have h1 : (String.mk (s.data.take 100)).length = (s.data.take 100).length := rfl
  have h2 : (s.data.take 100).length ≤ 100 := s.data.length_take_le 100
  have h3 : ("..." : String).length = 3 := rfl
  omega

theorem previewText_short (s : String) (h : s.length ≤ 100) :
    previewText s = s ++ "..." := by
  unfold previewText
  rw [List.take_of_length_le h]

theorem append_dots_ne (s : String) : s ++ "..." ≠ s := by
  intro h
  have h2 := congrArg String.length h
  rw [String.length_append] at h2
  have h3 : ("..." : String).length = 3 := rfl
  omega

/-! ### Tenant scope (C9) -/

/-- C9. The tenant scope is exactly `"client_" ++ client_id`; it is
deterministic and injective, and the payload of every retrieval call
carries the scoped identifier in its `partition` field, never the raw
client id. -/
theorem tenant_scope_spec :
    (∀ c : String, partitionOf c = "client_" ++ c) ∧
    (∀ a b : String, a = b → partitionOf a = partitionOf b) ∧
    (∀ a b : String, a ≠ b → partitionOf a ≠ partitionOf b) ∧
    (∀ (q c : String) (k : Int),
      (retrievePayload q c k).partition = partitionOf c ∧
      (retrievePayload q c k).partition ≠ c) := by
  refine ⟨fun c => rfl, fun a b h => congrArg partitionOf h, ?_, ?_⟩
  · intro a b hne heq
    apply hne
    unfold partitionOf at heq
    have h2 := congrArg String.data heq
    simp only [String.data_append] at h2
    have h3 := List.append_cancel_left h2
    cases a; cases b; exact congrArg String.mk h3
  · intro q c k
    refine ⟨rfl, ?_⟩
    show partitionOf c ≠ c
    intro h
    have h2 := congrArg String.length h
    unfold partitionOf at h2
    rw [String.length_append] at h2
    have h7 : ("client_" : String).length = 7 := rfl
    omega

/-- Witness for C9 at concrete client ids. -/
theorem tenant_scope_spec_witness :
    partitionOf "alice" = "client_" ++ "alice" ∧
    partitionOf "alice" ≠ partitionOf "bob" ∧
    (retrievePayload "what is x" "alice" 8).partition ≠ "alice" :=
  ⟨tenant_scope_spec.1 "alice",
   tenant_scope_spec.2.2.1 "alice" "bob" (by decide),
   (tenant_scope_spec.2.2.2 "what is x" "alice" 8).2⟩

/-! ### Citation preview bound (C7) -/

/-- C7. Every citation's preview text has length at most the
100-character budget plus the 3-character ellipsis marker, whatever the
passage text. -/
theorem citation_preview_bounded (i : Nat) (c : Chunk) (cit : Citation)
    (h : mkCitation i c = some cit) :
    cit.text.length ≤ 100 + 3 := by
  obtain ⟨t, _, hc⟩ := mkCitation_eq i c cit h
  rw [hc]
  exact previewText_length t

/-- Witness for C7: a concrete 2-character passage. -/
theorem citation_preview_bounded_witness :
    (Citation.mk 1 .null .null "hi..." (.str "N/A") (.num 0)).text.length ≤ 100 + 3 :=
  citation_preview_bounded 0 [("text", JsonVal.str "hi")]
    (Citation.mk 1 .null .null "hi..." (.str "N/A") (.num 0)) (by decide)

/-! ### Preview of short passages (C6) -/

/-- C6 counterexample: the 2-character passage "hi" is well below the
100-character budget, yet its citation preview is "hi..." — the
truncation marker is appended, so the text is not used as-is. -/
theorem short_preview_counterexample :
    (mkCitation 0 [("text", JsonVal.str "hi")]).map Citation.text = some "hi..." ∧
    ("hi" : String).length < 100 ∧ ("hi..." : String) ≠ "hi" := by decide

/-- C6 amended: the Citation Builder appends the ellipsis marker
unconditionally; a passage text within the budget yields its full text
followed by "...", never the text as-is. -/
theorem short_preview_amended (i : Nat) (c : Chunk) (cit : Citation) (t : String)
    (htext : dictGetD c "text" (.str "") = .str t)
    (hshort : t.length ≤ 100)
    (h : mkCitation i c = some cit) :
    cit.text = t ++ "..." ∧ cit.text ≠ t := by
  obtain ⟨u, hu, hc⟩ := mkCitation_eq i c cit h
  rw [htext] at hu
  have hut : u = t := by simpa [getStr] using hu.symm
  subst hut
  rw [hc]
  exact ⟨previewText_short u hshort, previewText_short u hshort ▸ append_dots_ne u⟩

/-- Witness for the amended C6 at the concrete passage "hi". -/
theorem short_preview_amended_witness :
    (Citation.mk 1 .null .null "hi..." (.str "N/A") (.num 0)).text = "hi" ++ "..." :=
  (short_preview_amended 0 [("text", JsonVal.str "hi")]
    (Citation.mk 1 .null .null "hi..." (.str "N/A") (.num 0)) "hi"
    (by decide) (by decide) (by decide)).1

/-! ### Page number handling (C8) -/

/-- C8 counterexample: a passage whose `page_number` field is present but
null (one way for a passage to carry no page number) produces a citation
whose `page_number` is null, not the string "N/A" — so a returned
citation's `page_number` can be null. -/
theorem page_number_counterexample :
    (mkCitation 0 [("page_number", JsonVal.null)]).map Citation.page_number =
      some JsonVal.null ∧
    JsonVal.null ≠ JsonVal.str "N/A" := by decide

/-- C8 amended: only a passage whose `page_number` key is absent gets the
"N/A" sentinel; a present `page_number` value — including null or the
empty string — is passed through to the citation unchanged. -/
theorem page_number_amended (i : Nat) (c : Chunk) (cit : Citation)
    (h : mkCitation i c = some cit) :
    (List.lookup "page_number" c = none → cit.page_number = .str "N/A") ∧
    (∀ v, List.lookup "page_number" c = some v → cit.page_number = v) := by
  obtain ⟨t, _, hc⟩ := mkCitation_eq i c cit h
  subst hc
  constructor
  · intro hnone
    simp [dictGetD, hnone]
  · intro v hv
    simp [dictGetD, hv]

/-- Witness for the amended C8: a chunk with no `page_number` key yields
the "N/A" sentinel. -/
theorem page_number_amended_witness :
    (Citation.mk 1 .null .null "..." (.str "N/A") (.num 0)).page_number =
      JsonVal.str "N/A" :=
  (page_number_amended 0 []
    (Citation.mk 1 .null .null "..." (.str "N/A") (.num 0)) (by decide)).1 rfl

/-! ### Missing document and chunk ids (C10) -/

/-- C10. A passage lacking the `document_id` or `chunk_id` key still
yields a citation (no error), and the missing field is null in the
citation rather than a string; the only constraint is that the passage's
`text` value, when present, is a string (otherwise the Python slice
raises). -/
theorem missing_ids_passthrough (i : Nat) (c : Chunk)
    (htext : ∀ v, List.lookup "text" c = some v → ∃ s, v = JsonVal.str s) :
    (mkCitation i c).isSome = true ∧
    ∀ cit, mkCitation i c = some cit →
      (List.lookup "document_id" c = none → cit.document_id = .null) ∧
      (List.lookup "chunk_id" c = none → cit.chunk_id = .null) := by
  constructor
  · unfold mkCitation
    cases hl : List.lookup "text" c with
    | none => simp [dictGetD, hl, getStr]
    | some v =>
        obtain ⟨s, hs⟩ := htext v hl
        simp [dictGetD, hl, hs, getStr]
  · intro cit hcit
    obtain ⟨t, _, hc⟩ := mkCitation_eq i c cit hcit
    subst hc
    constructor
    · intro hnone; simp [dictGetD, hnone]
    · intro hnone; simp [dictGetD, hnone]

/-- Witness for C10: a chunk with only a text field yields a citation
with null `document_id` and `chunk_id`. -/
theorem missing_ids_passthrough_witness :
    (mkCitation 0 [("text", JsonVal.str "hello")]).isSome = true ∧
    (mkCitation 0 [("text", JsonVal.str "hello")]).map Citation.document_id =
      some JsonVal.null := by
  have h := missing_ids_passthrough 0 [("text", JsonVal.str "hello")]
    (fun v hv => ⟨"hello", by simpa using hv.symm⟩)
  refine ⟨h.1, ?_⟩
  have h2 := (h.2 (Citation.mk 1 .null .null "hello..." (.str "N/A") (.num 0))
    (by decide)).1 (by decide)
  rw [show mkCitation 0 [("text", JsonVal.str "hello")] =
      some (Citation.mk 1 .null .null "hello..." (.str "N/A") (.num 0)) from by decide]
  exact congrArg some h2

/-! ### Citation alignment (C4) -/

theorem buildCitationsFrom_spec (ps : List Chunk) :
    ∀ (i : Nat) (cs : List Citation), buildCitationsFrom i ps = some cs →
      cs.length = ps.length ∧
      ∀ j (hj : j < cs.length) (hp : j < ps.length),
        mkCitation (i + j) (ps.get ⟨j, hp⟩) = some (cs.get ⟨j, hj⟩) := by
  induction ps with
  | nil =>
      intro i cs h
      simp only [buildCitationsFrom, Option.some_inj] at h
      subst h
      exact ⟨rfl, fun j hj _ => absurd hj (by simp)⟩
  | cons c rest ih =>
      intro i cs h
      unfold buildCitationsFrom at h
      cases hm : mkCitation i c with
      | none => rw [hm] at h; exact absurd h (by simp)
      | some cit =>
          rw [hm] at h
          cases hr : buildCitationsFrom (i + 1) rest with
          | none => rw [hr] at h; exact absurd h (by simp)
          | some rcs =>
              rw [hr] at h
              simp only [Option.some_inj] at h
              subst h
              obtain ⟨hlen, hidx⟩ := ih (i + 1) rcs hr
              refine ⟨by simp [hlen], ?_⟩
              intro j hj hp
              cases j with
              | zero => simpa using hm
              | succ j' =>
                  have hj2 : j' < rcs.length := by simpa using hj
                  have hp2 : j' < rest.length := by simpa using hp
                  have hstep := hidx j' hj2 hp2
                  have harith : i + 1 + j' = i + (j' + 1) := by omega
                  rw [harith] at hstep
                  simpa using hstep

/-- C4. On a non-empty chunk sequence of length n, the citation loop
yields exactly n citations, their ids are 1..n in input order, and the
i-th citation is built from the i-th input chunk (no re-sorting). -/
theorem build_citations_aligned (ps : List Chunk) (cs : List Citation)
    (hne : ps ≠ [])
    (h : buildCitations ps = some cs) :
    cs.length = ps.length ∧
    (∀ i (hi : i < cs.length), (cs.get ⟨i, hi⟩).id = i + 1) ∧
    (∀ i (hi : i < cs.length) (hp : i < ps.length),
      mkCitation i (ps.get ⟨i, hp⟩) = some (cs.get ⟨i, hi⟩)) := by
  have _ := hne
  obtain ⟨hlen, hidx⟩ := buildCitationsFrom_spec ps 0 cs h
  refine ⟨hlen, ?_, ?_⟩
  · intro i hi
    have hp : i < ps.length := hlen ▸ hi
    have hstep := hidx i hi hp
    rw [Nat.zero_add] at hstep
    obtain ⟨t, _, hc⟩ := mkCitation_eq i (ps.get ⟨i, hp⟩) (cs.get ⟨i, hi⟩) hstep
    rw [hc]
  · intro i hi hp
    have hstep := hidx i hi hp
    rwa [Nat.zero_add] at hstep

/-- Witness for C4 on a concrete two-chunk sequence. -/
theorem build_citations_aligned_witness :
    ([Citation.mk 1 .null .null "a..." (.str "N/A") (.num 0),
      Citation.mk 2 .null .null "b..." (.str "N/A") (.num 0)] : List Citation).length =
      ([[("text", JsonVal.str "a")], [("text", JsonVal.str "b")]] : List Chunk).length :=
  (build_citations_aligned
    [[("text", JsonVal.str "a")], [("text", JsonVal.str "b")]]
    [Citation.mk 1 .null .null "a..." (.str "N/A") (.num 0),
     Citation.mk 2 .null .null "b..." (.str "N/A") (.num 0)]
    (by decide) (by decide)).1

/-! ### Orchestrator claims (C1, C2, C3, C5) -/

theorem generate_response_err (q : String) (chunks : List Chunk) :
    generate_response q chunks .err = none := by
  unfold generate_response
  cases h : buildCitations chunks <;> simp

theorem handleQuery_no_chunks (raw : RawRequest) (req : QueryRequest)
    (ret : RetrievalOutcome) (llm : LLMOutcome)
    (hreq : parseRequest raw = some req)
    (hempty : extractChunks (retrieve_chunks req.query req.client_id req.top_k ret) = []) :
    handleQuery raw ret llm =
      { response := .success
          { answer := "No relevant information found for your query.", citations := [] }
        retrievalCalled := true
        llmCalled := false } := by
  unfold handleQuery
  rw [hreq]
  simp only [hempty, List.isEmpty_nil, if_true]
  rfl

/-- C1. Whenever the retrieval step yields an empty chunk sequence, the
query handler returns exactly the canned no-information answer with an
empty citation list, and the language model is never invoked. -/
theorem empty_retrieval_short_circuit (raw : RawRequest) (req : QueryRequest)
    (ret : RetrievalOutcome) (llm : LLMOutcome)
    (hreq : parseRequest raw = some req)
    (hempty : extractChunks (retrieve_chunks req.query req.client_id req.top_k ret) = []) :
    handleQuery raw ret llm =
      { response := .success
          { answer := "No relevant information found for your query.", citations := [] }
        retrievalCalled := true
        llmCalled := false } :=
  handleQuery_no_chunks raw req ret llm hreq hempty

/-- Witness for C1: a request against a retrieval response with no
chunks, with an LLM oracle that would answer if consulted. -/
theorem empty_retrieval_short_circuit_witness :
    handleQuery { query := some "q", client_id := some "c", top_k := none }
        (.ok []) (.ok "ignored") =
      { response := .success
          { answer := "No relevant information found for your query.", citations := [] }
        retrievalCalled := true
        llmCalled := false } :=
  empty_retrieval_short_circuit
    { query := some "q", client_id := some "c", top_k := none }
    { query := "q", client_id := "c", top_k := 8 }
    (.ok []) (.ok "ignored") (by decide) (by decide)

/-- C2. A network or service failure in the retrieval call never escapes
`retrieve_chunks`: it degrades to a `{"chunks": []}` response, and the
handler then returns the canned no-information answer rather than an
error. -/
theorem retrieval_failure_degrades (q c : String) (k : Int)
    (raw : RawRequest) (req : QueryRequest) (llm : LLMOutcome)
    (hreq : parseRequest raw = some req) :
    retrieve_chunks q c k .err = [("chunks", [])] ∧
    handleQuery raw .err llm =
      { response := .success { answer := noInfoAnswer, citations := [] }
        retrievalCalled := true
        llmCalled := false } := by
  refine ⟨rfl, ?_⟩
  apply handleQuery_no_chunks raw req .err llm hreq
  rfl

/-- Witness for C2 at a concrete request. -/
theorem retrieval_failure_degrades_witness :
    handleQuery { query := some "q", client_id := some "c", top_k := none }
        .err (.ok "ignored") =
      { response := .success { answer := noInfoAnswer, citations := [] }
        retrievalCalled := true
        llmCalled := false } :=
  (retrieval_failure_degrades "q" "c" 8
    { query := some "q", client_id := some "c", top_k := none }
    { query := "q", client_id := "c", top_k := 8 }
    (.ok "ignored") (by decide)).2

/-- C3. When retrieval yields a non-empty chunk sequence and the
language-model call fails, the handler surfaces an HTTP 500 hard failure
to the caller; it never returns a success result in that case. -/
theorem synthesis_failure_propagates (raw : RawRequest) (req : QueryRequest)
    (ret : RetrievalOutcome)
    (hreq : parseRequest raw = some req)
    (hnonempty :
      extractChunks (retrieve_chunks req.query req.client_id req.top_k ret) ≠ []) :
    (handleQuery raw ret .err).response = .httpError 500 ∧
    ∀ r, (handleQuery raw ret .err).response ≠ .success r := by
  have hmain : (handleQuery raw ret .err).response = .httpError 500 := by
    unfold handleQuery
    rw [hreq]
    simp only [generate_response_err]
    rw [if_neg (by simpa [List.isEmpty_iff] using hnonempty)]
  refine ⟨hmain, ?_⟩
  intro r hr
  rw [hmain] at hr
  exact Response.noConfusion hr

/-- Witness for C3: one retrieved chunk, failing completion call. -/
theorem synthesis_failure_propagates_witness :
    (handleQuery { query := some "q", client_id := some "c", top_k := none }
        (.ok [("chunks", [[("text", JsonVal.str "t")]])]) .err).response =
      .httpError 500 :=
  (synthesis_failure_propagates
    { query := some "q", client_id := some "c", top_k := none }
    { query := "q", client_id := "c", top_k := 8 }
    (.ok [("chunks", [[("text", JsonVal.str "t")]])])
    (by decide) (by decide)).1

/-- C5 counterexample: a request with an empty query string and a present
client id is not rejected — it passes validation and the retrieval
service is contacted (with the empty query), contradicting the claim that
empty query text is rejected before any external call. -/
theorem empty_query_not_rejected :
    parseRequest { query := some "", client_id := some "c1", top_k := none } =
      some { query := "", client_id := "c1", top_k := 8 } ∧
    (handleQuery { query := some "", client_id := some "c1", top_k := none }
        (.ok []) (.ok "a")).retrievalCalled = true ∧
    (handleQuery { query := some "", client_id := some "c1", top_k := none }
        (.ok []) (.ok "a")).response ≠ .validationError := by decide

/-- C5 amended: a request missing (or carrying null for) the `client_id`
or `query` field is rejected by body validation before any external call
— neither the retrieval service nor the language model is contacted; an
empty query string, however, passes validation. -/
theorem missing_field_rejected (raw : RawRequest) (ret : RetrievalOutcome)
    (llm : LLMOutcome)
    (h : raw.client_id = none ∨ raw.query = none) :
    handleQuery raw ret llm =
      { response := .validationError, retrievalCalled := false, llmCalled := false } := by
  have hparse : parseRequest raw = none := by
    unfold parseRequest
    rcases h with h | h
    · rw [h]
      cases hq : raw.query <;> rfl
    · rw [h]
  unfold handleQuery
  rw [hparse]

/-- Witness for the amended C5: a request lacking a client id. -/
theorem missing_field_rejected_witness :
    handleQuery { query := some "q", client_id := none, top_k := none }
        (.ok []) (.ok "a") =
      { response := .validationError, retrievalCalled := false, llmCalled := false } :=
  missing_field_rejected { query := some "q", client_id := none, top_k := none }
    (.ok []) (.ok "a") (Or.inl rfl)

end RagieAgent
